import Mathlib

/-!
A shallow embedding of the gauge ("Meter") widget subsystem of sysmon-pytk.

The embedding follows `src/sysmon_pytk/widgets/meter.py` and
`src/sysmon_pytk/widgets/meters/updating_meter.py`.  Python floats are
modelled as rationals (`ℚ`), canvas items as record fields holding the
attributes the code sets via `itemconfig`, and Python's fallible division
(which raises `ZeroDivisionError` on a zero denominator) as an
`Option`-returning operation.  The tkinter `after`-based refresh loop of
`UpdatingMeter` is modelled as an explicit state machine driven by a fake
clock.
-/

/-- Python float division: `a / b` raises `ZeroDivisionError` when `b == 0`,
modelled as `none`. -/
def pydiv (a b : ℚ) : Option ℚ :=
  if b = 0 then none else some (a / b)

/-- Python `int(x)` on a float: truncation toward zero. -/
def pyInt (q : ℚ) : ℤ :=
  if 0 ≤ q then ⌊q⌋ else ⌈q⌉

/-- Least exponent `k` with `d ∣ 10 ^ k`, when one exists below the fuel
bound `d + 1` (it always does for denominators of binary floats). -/
def leastPow10Exp (d : ℕ) : Option ℕ :=
  (List.range (d + 1)).find? (fun k => 10 ^ k % d == 0)

/-- Insert a decimal point `k` digits from the right of a digit string,
zero-padding the integer part as needed. -/
def insertPoint (s : String) (k : ℕ) : String :=
  let s := if s.length ≤ k then String.mk (List.replicate (k + 1 - s.length) '0') ++ s else s
  s.take (s.length - k) ++ "." ++ s.drop (s.length - k)

/-- Python `str(x)` / f-string rendering of a float variable holding the
exact rational `q`: integral values render with a trailing `.0` and finite
decimal fractions render with their shortest decimal expansion. -/
def pyFloatRepr (q : ℚ) : String :=
  match leastPow10Exp q.den with
  | some 0 => toString q.num ++ ".0"
  | some (k + 1) =>
      let body := insertPoint (toString (q.num.natAbs * 10 ^ (k + 1) / q.den)) (k + 1)
      if q.num < 0 then "-" ++ body else body
  | none => toString q

/-- The ambient ttk theme, as observed through `ttk.Style().lookup` and
`StyleManager.test_dark_mode` in `check_dark_mode`. -/
structure Theme where
  text_color : String
  background : String
  dark_mode : Bool

/-- `StyleManager.test_dark_mode(trueval, falseval)`: return `trueval` in
dark mode and `falseval` otherwise. -/
def Theme.test_dark_mode (θ : Theme) (trueval falseval : String) : String :=
  if θ.dark_mode then trueval else falseval

/-- One canvas arc item: its start angle, angular extent and outline color. -/
structure Arc where
  start : ℚ
  extent : ℚ
  outline : String
  deriving DecidableEq

/-- The four branches of the needle-color selection in `_update_meter`. -/
inductive NColor where
  | blue
  | red
  | yellow
  | neutral
  deriving DecidableEq

/-- The keyword arguments of `Meter.__init__`, with their Python defaults. -/
structure MeterConfig where
  width : ℚ := 300
  height : ℚ := 225
  min_value : ℚ := 0
  max_value : ℚ := 100
  label : String := ""
  unit : String := ""
  divisions : ℕ := 10
  yellow : ℚ := 15
  red : ℚ := 15
  blue : ℚ := 0

/-- The observable state of a `Meter` widget: the constructor arguments it
stores, the theme-derived colors from `check_dark_mode`, the `DoubleVar`
`var`, and the attributes of every canvas item it creates. -/
structure MeterState where
  unit : String
  min_value : ℚ
  max_value : ℚ
  width : ℚ
  height : ℚ
  divisions : ℕ
  range_blue : ℚ
  range_yellow : ℚ
  range_red : ℚ
  text_color : String
  background : String
  meter_color : String
  meter_red : String
  meter_yellow : String
  meter_blue : String
  var : ℚ
  canvas_background : String
  label1_text : String
  label1_fill : String
  min_label_text : String
  min_label_fill : String
  max_label_text : String
  max_label_fill : String
  current_text : String
  current_fill : String
  wedges : List Arc
  zone_arcs : List Arc
  meter_start : ℚ
  meter_extent : ℚ
  meter_fill : String
  meter_outline : String
  inset_fill : String
  inset_outline : String
  inset_border_outline : String

/-- `Meter.GREEN`. -/
def Meter.GREEN : String := "#0a0"

/-- `Meter.YELLOW`. -/
def Meter.YELLOW : String := "#dd0"

/-- `Meter.RED`. -/
def Meter.RED : String := "#d00"

/-- `Meter.BLUE`. -/
def Meter.BLUE : String := "#00a"

/-- `Meter.START_ANGLE = 36`. -/
def Meter.START_ANGLE : ℚ := 36

/-- `Meter.EXTENT_ANGLE = 180 - 2*START_ANGLE`. -/
def Meter.EXTENT_ANGLE : ℚ := 180 - 2 * Meter.START_ANGLE

/-- `Meter._percent_to_degrees`. -/
def Meter.percent_to_degrees (pct : ℚ) : ℚ :=
  Meter.EXTENT_ANGLE * pct / 100

/-- The color-scale arcs created once by `_add_gauge_lines`: the full green
track, then the red, yellow and blue zone arcs, each only when its
percentage is positive. -/
def Meter.zoneArcs (red yellow blue : ℚ) : List Arc :=
  [{ start := Meter.START_ANGLE, extent := Meter.EXTENT_ANGLE, outline := Meter.GREEN }]
    ++ (if red > 0 then
        [{ start := Meter.START_ANGLE, extent := Meter.percent_to_degrees red,
           outline := Meter.RED }] else [])
    ++ (if yellow > 0 then
        [{ start := Meter.percent_to_degrees red + Meter.START_ANGLE,
           extent := Meter.percent_to_degrees yellow, outline := Meter.YELLOW }] else [])
    ++ (if blue > 0 then
        [{ start := Meter.EXTENT_ANGLE + Meter.START_ANGLE,
           extent := -(Meter.percent_to_degrees blue), outline := Meter.BLUE }] else [])

/-- `Meter.check_dark_mode`: re-derive the theme-dependent base colors from
the ambient style. -/
def Meter.check_dark_mode (θ : Theme) (m : MeterState) : MeterState :=
  { m with
    text_color := θ.text_color
    background := θ.background
    meter_color := θ.test_dark_mode "#cccccc" "#666666"
    meter_red := θ.test_dark_mode "#ff2222" "#cc0000"
    meter_yellow := θ.test_dark_mode "#ffff22" "#cccc00"
    meter_blue := θ.test_dark_mode "#2222ff" "#0000cc" }

/-- `Meter._update_meter_line(angle)`: move the needle's start angle and
rewrite the current-value label from `var`. -/
def Meter.update_meter_line (m : MeterState) (angle : ℚ) : MeterState :=
  { m with
    meter_start := angle
    current_text := pyFloatRepr m.var ++ m.unit }

/-- `Meter.__init__`: store the configuration, derive the theme colors,
create every canvas item, and finish with `_update_meter_line` at the
low end of the arc. -/
def Meter.init (θ : Theme) (cfg : MeterConfig) : MeterState :=
  Meter.update_meter_line
    { unit := cfg.unit
      min_value := cfg.min_value
      max_value := cfg.max_value
      width := cfg.width
      height := cfg.height
      divisions := cfg.divisions
      range_blue := cfg.blue
      range_yellow := cfg.yellow
      range_red := cfg.red
      text_color := θ.text_color
      background := θ.background
      meter_color := θ.test_dark_mode "#cccccc" "#666666"
      meter_red := θ.test_dark_mode "#ff2222" "#cc0000"
      meter_yellow := θ.test_dark_mode "#ffff22" "#cccc00"
      meter_blue := θ.test_dark_mode "#2222ff" "#0000cc"
      var := 0
      canvas_background := θ.background
      label1_text := cfg.label
      label1_fill := θ.text_color
      min_label_text := toString (pyInt cfg.min_value) ++ cfg.unit
      min_label_fill := θ.text_color
      max_label_text := toString (pyInt cfg.max_value) ++ cfg.unit
      max_label_fill := θ.text_color
      current_text := pyFloatRepr 0 ++ cfg.unit
      current_fill := θ.text_color
      wedges := (List.range cfg.divisions).map (fun i =>
        { start := (i : ℚ) * (Meter.EXTENT_ANGLE / (cfg.divisions : ℚ)) + Meter.START_ANGLE
          extent := Meter.EXTENT_ANGLE / (cfg.divisions : ℚ)
          outline := θ.text_color })
      zone_arcs := Meter.zoneArcs cfg.red cfg.yellow cfg.blue
      meter_start := Meter.EXTENT_ANGLE + Meter.START_ANGLE
      meter_extent := 1
      meter_fill := θ.test_dark_mode "#cccccc" "#666666"
      meter_outline := θ.test_dark_mode "#cccccc" "#666666"
      inset_fill := θ.text_color
      inset_outline := θ.text_color
      inset_border_outline := θ.test_dark_mode "#cccccc" "#666666" }
    (Meter.EXTENT_ANGLE + Meter.START_ANGLE)

/-- The first-match needle-color selection of `_update_meter`: blue, then
red, then yellow, then the neutral meter color. -/
def needleColorSel (range_blue range_yellow range_red pct : ℚ) : NColor :=
  if pct * 100 < range_blue then NColor.blue
  else if pct * 100 > 100 - range_red then NColor.red
  else if pct * 100 > 100 - range_red - range_yellow then NColor.yellow
  else NColor.neutral

/-- The color string a `MeterState` uses for each needle-color branch. -/
def Meter.colorOf (m : MeterState) : NColor → String
  | NColor.blue => m.meter_blue
  | NColor.red => m.meter_red
  | NColor.yellow => m.meter_yellow
  | NColor.neutral => m.meter_color

/-- `Meter._update_meter`: compute `pct` from `var` (a `ZeroDivisionError`
when the range is empty yields `none`), recolor the needle by the
first-match rule, and move the needle to `(1 - pct) * EXTENT_ANGLE +
START_ANGLE`. -/
def Meter.update_meter (m : MeterState) : Option MeterState :=
  (pydiv (m.var - m.min_value) (m.max_value - m.min_value)).map (fun pct =>
    let c := Meter.colorOf m (needleColorSel m.range_blue m.range_yellow m.range_red pct)
    Meter.update_meter_line
      { m with meter_fill := c, meter_outline := c }
      ((1 - pct) * Meter.EXTENT_ANGLE + Meter.START_ANGLE))

/-- `Meter.set_value(value)`: write the `DoubleVar`, which fires the
`_update_meter` trace. -/
def Meter.set_value (m : MeterState) (v : ℚ) : Option MeterState :=
  Meter.update_meter { m with var := v }

/-- `Meter.update_for_dark_mode`: re-derive the theme colors and reapply
them to the canvas background, the four text labels, the needle, the inset
and its border, and the tick wedges. -/
def Meter.update_for_dark_mode (θ : Theme) (m : MeterState) : MeterState :=
  let m := Meter.check_dark_mode θ m
  { m with
    canvas_background := m.background
    label1_fill := m.text_color
    min_label_fill := m.text_color
    max_label_fill := m.text_color
    current_fill := m.text_color
    meter_fill := m.meter_color
    meter_outline := m.meter_color
    inset_fill := m.text_color
    inset_outline := m.text_color
    inset_border_outline := m.text_color
    wedges := m.wedges.map (fun a => { a with outline := m.text_color }) }

/-- The needle angle formula of `_update_meter`, as a function of the range
and the value. -/
def needleAngle (mn mx v : ℚ) : ℚ :=
  (1 - (v - mn) / (mx - mn)) * Meter.EXTENT_ANGLE + Meter.START_ANGLE

/-- The state produced by a successful `set_value`, written out explicitly. -/
def Meter.render_value (m : MeterState) (v : ℚ) : MeterState :=
  let pct := (v - m.min_value) / (m.max_value - m.min_value)
  let c := Meter.colorOf m (needleColorSel m.range_blue m.range_yellow m.range_red pct)
  { m with
    var := v
    meter_fill := c
    meter_outline := c
    meter_start := (1 - pct) * Meter.EXTENT_ANGLE + Meter.START_ANGLE
    current_text := pyFloatRepr v ++ m.unit }

theorem Meter.set_value_eq (m : MeterState) (v : ℚ)
    (hb : m.max_value - m.min_value ≠ 0) :
    Meter.set_value m v = some (Meter.render_value m v) := by
  simp only [Meter.set_value, Meter.update_meter, pydiv, hb, if_neg, Meter.render_value,
    Meter.update_meter_line, if_false, Option.map_some, Option.some.injEq]
  cases h : needleColorSel m.range_blue m.range_yellow m.range_red
      ((v - m.min_value) / (m.max_value - m.min_value)) <;>
    simp [Meter.colorOf, h]

/-- `REFRESH_INTERVAL` from `_common.py`, in milliseconds. -/
def REFRESH_INTERVAL : ℕ := 750

/-- One observable event of an `UpdatingMeter` run: a `get_value` call
returning `v`, or a `set_value` call with argument `v`. -/
inductive Ev where
  | get_value (v : ℚ)
  | set_value (v : ℚ)
  deriving DecidableEq

/-- Whether an event is a `get_value` call. -/
def Ev.isGet : Ev → Bool
  | Ev.get_value _ => true
  | Ev.set_value _ => false

/-- Whether an event is a `set_value` call. -/
def Ev.isSet : Ev → Bool
  | Ev.get_value _ => false
  | Ev.set_value _ => true

/-- The state of an `UpdatingMeter` run against a fake clock: the clock
time in milliseconds, the number of `get_value` calls made by the counting
value provider, the ordered call trace, the pending `after` job
(`_update_job`) as an id paired with its scheduled firing time, and the
next fresh timer id. -/
structure UMState where
  now : ℕ
  calls : ℕ
  trace : List Ev
  update_job : Option (ℕ × ℕ)
  next_id : ℕ

/-- `UpdatingMeter.update_widget`: `set_value(get_value())`, then
`_update_job = after(REFRESH_INTERVAL, update_widget)`.  The counting
provider `p` is indexed by how many times it has been called so far. -/
def UpdatingMeter.update_widget (p : ℕ → ℚ) (s : UMState) : UMState :=
  let v := p s.calls
  { s with
    calls := s.calls + 1
    trace := s.trace ++ [Ev.get_value v, Ev.set_value v]
    update_job := some (s.next_id, s.now + REFRESH_INTERVAL)
    next_id := s.next_id + 1 }

/-- `UpdatingMeter.__init__` as seen by the fake clock at time 0:
`_update_job = None`, then one synchronous `update_widget()`. -/
def UpdatingMeter.init (p : ℕ → ℚ) : UMState :=
  UpdatingMeter.update_widget p
    { now := 0, calls := 0, trace := [], update_job := none, next_id := 0 }

/-- Advance the fake clock by one `REFRESH_INTERVAL`, firing the pending
`after` job if its scheduled time has been reached. -/
def advanceInterval (p : ℕ → ℚ) (s : UMState) : UMState :=
  let s1 : UMState := { s with now := s.now + REFRESH_INTERVAL }
  match s1.update_job with
  | some (_, due) => if due ≤ s1.now then UpdatingMeter.update_widget p s1 else s1
  | none => s1

/-- `UpdatingMeter.on_destroy`: cancel the pending update job, if any. -/
def UpdatingMeter.on_destroy (s : UMState) : UMState :=
  match s.update_job with
  | some _ => { s with update_job := none }
  | none => s

/-- The expected call trace after `n` provider calls: each `get_value`
immediately followed by the `set_value` of its result. -/
def traceUpTo (p : ℕ → ℚ) (n : ℕ) : List Ev :=
  (List.range n).flatMap (fun i => [Ev.get_value (p i), Ev.set_value (p i)])

theorem traceUpTo_succ (p : ℕ → ℚ) (n : ℕ) :
    traceUpTo p (n + 1) = traceUpTo p n ++ [Ev.get_value (p n), Ev.set_value (p n)] := by
  simp [traceUpTo, List.range_succ]

theorem traceUpTo_countP_get (p : ℕ → ℚ) (n : ℕ) :
    (traceUpTo p n).countP Ev.isGet = n := by
  induction n with
  | zero => simp [traceUpTo]
  | succ k ih =>
      simp [traceUpTo_succ, List.countP_append, ih, List.countP_cons, Ev.isGet]

theorem traceUpTo_countP_set (p : ℕ → ℚ) (n : ℕ) :
    (traceUpTo p n).countP Ev.isSet = n := by
  induction n with
  | zero => simp [traceUpTo]
  | succ k ih =>
      simp [traceUpTo_succ, List.countP_append, ih, List.countP_cons, Ev.isSet]

/-- Loop invariant of the refresh schedule: after `N` timer firings the
provider has run `N + 1` times, the trace is the strictly ordered
get/set sequence, and one job is pending exactly one interval ahead. -/
theorem um_loop_invariant (p : ℕ → ℚ) (N : ℕ) :
    ((advanceInterval p)^[N] (UpdatingMeter.init p)).calls = N + 1 ∧
    ((advanceInterval p)^[N] (UpdatingMeter.init p)).trace = traceUpTo p (N + 1) ∧
    ((advanceInterval p)^[N] (UpdatingMeter.init p)).now = N * REFRESH_INTERVAL ∧
    ((advanceInterval p)^[N] (UpdatingMeter.init p)).next_id = N + 1 ∧
    ((advanceInterval p)^[N] (UpdatingMeter.init p)).update_job
      = some (N, (N + 1) * REFRESH_INTERVAL) := by
  induction N with
  | zero =>
      refine ⟨rfl, ?_, by simp [UpdatingMeter.init, UpdatingMeter.update_widget], rfl, ?_⟩
      · simp [UpdatingMeter.init, UpdatingMeter.update_widget, traceUpTo, List.range_succ]
      · simp [UpdatingMeter.init, UpdatingMeter.update_widget]
  | succ k ih =>
      obtain ⟨hc, ht, hn, hid, hj⟩ := ih
      rw [Function.iterate_succ_apply']
      set s := (advanceInterval p)^[k] (UpdatingMeter.init p) with hs
      have hfire : advanceInterval p s
          = UpdatingMeter.update_widget p { s with now := s.now + REFRESH_INTERVAL } := by
        rw [advanceInterval, hj]
        simp [hn, Nat.succ_mul, Nat.add_mul]
      rw [hfire]
      refine ⟨by simp [UpdatingMeter.update_widget, hc], ?_, ?_, ?_, ?_⟩
      · simp [UpdatingMeter.update_widget, ht, hc, traceUpTo_succ]
      · simp [UpdatingMeter.update_widget, hn, Nat.succ_mul]
      · simp [UpdatingMeter.update_widget, hid]
      · simp only [UpdatingMeter.update_widget, hn, hid, Option.some.injEq, Prod.mk.injEq]
        exact ⟨trivial, by ring⟩

theorem advanceInterval_of_cancelled (p : ℕ → ℚ) (s : UMState)
    (h : s.update_job = none) :
    (advanceInterval p s).trace = s.trace ∧ (advanceInterval p s).calls = s.calls ∧
      (advanceInterval p s).update_job = none := by
  simp [advanceInterval, h]

/-- After cancellation, any number of clock advances leaves the trace and
the provider call count unchanged. -/
theorem iterate_advance_of_cancelled (p : ℕ → ℚ) (s : UMState)
    (h : s.update_job = none) (M : ℕ) :
    ((advanceInterval p)^[M] s).trace = s.trace ∧
      ((advanceInterval p)^[M] s).calls = s.calls ∧
      ((advanceInterval p)^[M] s).update_job = none := by
  induction M with
  | zero => exact ⟨rfl, rfl, h⟩
  | succ k ih =>
      obtain ⟨h1, h2, h3⟩ := ih
      rw [Function.iterate_succ_apply']
      obtain ⟨g1, g2, g3⟩ := advanceInterval_of_cancelled p _ h3
      exact ⟨g1.trans h1, g2.trans h2, g3⟩

/-- A light-mode theme fixture for concrete runs. -/
def lightTheme : Theme :=
  { text_color := "#000000", background := "#ffffff", dark_mode := false }

/-- The standard test gauge of the spec: range [0,100] with
blue = yellow = red = 15 and the remaining defaults. -/
def cfgStd : MeterConfig := { blue := 15, yellow := 15, red := 15 }

/-- The standard test gauge, freshly constructed. -/
def mStd : MeterState := Meter.init lightTheme cfgStd

theorem mStd_min : mStd.min_value = 0 := rfl

theorem mStd_max : mStd.max_value = 100 := rfl

theorem mStd_rb : mStd.range_blue = 15 := rfl

theorem mStd_ry : mStd.range_yellow = 15 := rfl

theorem mStd_rr : mStd.range_red = 15 := rfl

theorem mStd_sub_ne : mStd.max_value - mStd.min_value ≠ 0 := by
  rw [mStd_max, mStd_min]; norm_num

/-- C4: after N firings of the fixed refresh interval since construction,
the value provider has been called exactly N + 1 times (one synchronous
call at construction plus one per timer firing), `set_value` has been
called exactly as often, and the trace is each `get_value` immediately
followed by the `set_value` of its result, in strict order. -/
theorem C4_refresh_schedule (p : ℕ → ℚ) (N : ℕ) :
    ((advanceInterval p)^[N] (UpdatingMeter.init p)).calls = N + 1 ∧
    ((advanceInterval p)^[N] (UpdatingMeter.init p)).trace.countP Ev.isGet = N + 1 ∧
    ((advanceInterval p)^[N] (UpdatingMeter.init p)).trace.countP Ev.isSet = N + 1 ∧
    ((advanceInterval p)^[N] (UpdatingMeter.init p)).trace = traceUpTo p (N + 1) := by
  obtain ⟨hc, ht, -, -, -⟩ := um_loop_invariant p N
  exact ⟨hc, by rw [ht, traceUpTo_countP_get], by rw [ht, traceUpTo_countP_set], ht⟩

/-- C5: destroying the widget cancels the pending scheduled refresh, and
advancing the clock any number of further intervals never invokes the
value provider again. -/
theorem C5_destroy_cancels_refresh (p : ℕ → ℚ) (N M : ℕ) :
    (UpdatingMeter.on_destroy ((advanceInterval p)^[N] (UpdatingMeter.init p))).update_job
      = none ∧
    ((advanceInterval p)^[M]
        (UpdatingMeter.on_destroy ((advanceInterval p)^[N] (UpdatingMeter.init p)))).calls
      = ((advanceInterval p)^[N] (UpdatingMeter.init p)).calls ∧
    ((advanceInterval p)^[M]
        (UpdatingMeter.on_destroy ((advanceInterval p)^[N] (UpdatingMeter.init p)))).trace
      = ((advanceInterval p)^[N] (UpdatingMeter.init p)).trace := by
  obtain ⟨-, -, -, -, hj⟩ := um_loop_invariant p N
  set s := (advanceInterval p)^[N] (UpdatingMeter.init p) with hs
  have hd : UpdatingMeter.on_destroy s = { s with update_job := none } := by
    rw [UpdatingMeter.on_destroy, hj]
  have hnone : (UpdatingMeter.on_destroy s).update_job = none := by rw [hd]
  obtain ⟨h1, h2, h3⟩ := iterate_advance_of_cancelled p _ hnone M
  refine ⟨hnone, ?_, ?_⟩
  · rw [h2, hd]
  · rw [h1, hd]

/-- C9: `update_for_dark_mode` re-derives the theme colors and reapplies
them to the canvas background, the four text labels, the needle, the inset
and its border, and the tick-wedge outlines, while leaving the zone arcs,
the needle's start angle and every label text unchanged. -/
theorem C9_theme_update (θ : Theme) (m : MeterState) :
    (Meter.update_for_dark_mode θ m).zone_arcs = m.zone_arcs ∧
    (Meter.update_for_dark_mode θ m).meter_start = m.meter_start ∧
    (Meter.update_for_dark_mode θ m).label1_text = m.label1_text ∧
    (Meter.update_for_dark_mode θ m).min_label_text = m.min_label_text ∧
    (Meter.update_for_dark_mode θ m).max_label_text = m.max_label_text ∧
    (Meter.update_for_dark_mode θ m).current_text = m.current_text ∧
    (Meter.update_for_dark_mode θ m).var = m.var ∧
    (Meter.update_for_dark_mode θ m).canvas_background = θ.background ∧
    (Meter.update_for_dark_mode θ m).label1_fill = θ.text_color ∧
    (Meter.update_for_dark_mode θ m).min_label_fill = θ.text_color ∧
    (Meter.update_for_dark_mode θ m).max_label_fill = θ.text_color ∧
    (Meter.update_for_dark_mode θ m).current_fill = θ.text_color ∧
    (Meter.update_for_dark_mode θ m).meter_fill = θ.test_dark_mode "#cccccc" "#666666" ∧
    (Meter.update_for_dark_mode θ m).meter_outline = θ.test_dark_mode "#cccccc" "#666666" ∧
    (Meter.update_for_dark_mode θ m).inset_fill = θ.text_color ∧
    (Meter.update_for_dark_mode θ m).inset_outline = θ.text_color ∧
    (Meter.update_for_dark_mode θ m).inset_border_outline = θ.text_color ∧
    (Meter.update_for_dark_mode θ m).wedges
      = m.wedges.map (fun a => { a with outline := θ.text_color }) :=
  ⟨rfl, rfl, rfl, rfl, rfl, rfl, rfl, rfl, rfl, rfl, rfl, rfl, rfl, rfl, rfl, rfl, rfl, rfl⟩

/-- Config with `min_value == max_value`, the failing input of C3. -/
def cfgDegenerate : MeterConfig := { min_value := 5, max_value := 5 }

/-- C3: the code has no construction-time guard for an empty range:
construction completes normally (producing a meter whose min and max
coincide) and the division by zero only surfaces as a runtime error when a
value is later set. -/
theorem C3_no_construction_guard :
    (Meter.init lightTheme cfgDegenerate).min_value
      = (Meter.init lightTheme cfgDegenerate).max_value ∧
    Meter.set_value (Meter.init lightTheme cfgDegenerate) 1 = none := by
  refine ⟨rfl, ?_⟩
  have hz : (Meter.init lightTheme cfgDegenerate).max_value
      - (Meter.init lightTheme cfgDegenerate).min_value = 0 := by
    show (5 : ℚ) - 5 = 0
    norm_num
  simp [Meter.set_value, Meter.update_meter, pydiv, hz]

/-- C10: a freshly constructed Meter holds value 0 (not min_value), its
current-value label reads "0.0" plus the unit, and its needle sits at
`START_ANGLE + EXTENT_ANGLE` regardless of the configured range; with
`min_value > 0` the initial display is below the gauge's own range. -/
theorem C10_fresh_meter (θ : Theme) (cfg : MeterConfig) :
    (Meter.init θ cfg).var = 0 ∧
    (Meter.init θ cfg).current_text = "0.0" ++ cfg.unit ∧
    (Meter.init θ cfg).meter_start = Meter.START_ANGLE + Meter.EXTENT_ANGLE ∧
    (0 < cfg.min_value → (Meter.init θ cfg).var < (Meter.init θ cfg).min_value) := by
  refine ⟨rfl, ?_, ?_, ?_⟩
  · show pyFloatRepr 0 ++ cfg.unit = "0.0" ++ cfg.unit
    rw [show pyFloatRepr 0 = "0.0" from rfl]
  · show Meter.EXTENT_ANGLE + Meter.START_ANGLE = Meter.START_ANGLE + Meter.EXTENT_ANGLE
    rw [add_comm]
  · intro h
    show (0 : ℚ) < cfg.min_value
    exact h

/-- Config with a positive lower bound, used to witness C10. -/
def cfgHigh : MeterConfig := { min_value := 20, max_value := 120 }

/-- Witness for C10: a gauge over [20,120] starts displaying 0, below its
own range. -/
theorem C10_fresh_meter_witness :
    (0 : ℚ) < cfgHigh.min_value ∧
    (Meter.init lightTheme cfgHigh).var < (Meter.init lightTheme cfgHigh).min_value :=
  ⟨by norm_num [cfgHigh], (C10_fresh_meter lightTheme cfgHigh).2.2.2 (by norm_num [cfgHigh])⟩

/-- C1: a successful `set_value(v)` puts the needle's start angle at
`(1 - pct) * EXTENT_ANGLE + START_ANGLE` with the unclamped
`pct = (v - min)/(max - min)`; over [0,100] the angle is strictly
decreasing in the value, hits 144/90/36 at 0/50/100, and leaves the
visible band [36,144] exactly for out-of-range values. -/
theorem C1_needle_angle :
    (∀ (m : MeterState) (v : ℚ), m.min_value < m.max_value →
      ∃ m', Meter.set_value m v = some m' ∧
        m'.meter_start = needleAngle m.min_value m.max_value v) ∧
    (∀ v1 v2 : ℚ, v1 < v2 → needleAngle 0 100 v2 < needleAngle 0 100 v1) ∧
    needleAngle 0 100 0 = 144 ∧ needleAngle 0 100 50 = 90 ∧ needleAngle 0 100 100 = 36 ∧
    (∀ mn mx v : ℚ, mn < mx →
      ((needleAngle mn mx v < 36 ∨ 144 < needleAngle mn mx v) ↔ (v < mn ∨ mx < v))) := by
  refine ⟨?_, ?_, ?_, ?_, ?_, ?_⟩
  · intro m v h
    exact ⟨_, Meter.set_value_eq m v (sub_pos.mpr h).ne', rfl⟩
  · intro v1 v2 h
    unfold needleAngle Meter.EXTENT_ANGLE Meter.START_ANGLE
    have h100 : (0 : ℚ) < 100 - 0 := by norm_num
    have hdiv : (v1 - 0) / (100 - 0) < (v2 - 0) / (100 - 0) :=
      (div_lt_div_iff_of_pos_right h100).mpr (by linarith)
    nlinarith [hdiv]
  · norm_num [needleAngle, Meter.EXTENT_ANGLE, Meter.START_ANGLE]
  · norm_num [needleAngle, Meter.EXTENT_ANGLE, Meter.START_ANGLE]
  · norm_num [needleAngle, Meter.EXTENT_ANGLE, Meter.START_ANGLE]
  · intro mn mx v h
    have hd : (0 : ℚ) < mx - mn := sub_pos.mpr h
    have hE : Meter.EXTENT_ANGLE = 108 := by
      norm_num [Meter.EXTENT_ANGLE, Meter.START_ANGLE]
    have hS : Meter.START_ANGLE = 36 := rfl
    have h1 : needleAngle mn mx v < 36 ↔ mx < v := by
      rw [needleAngle, hE, hS]
      constructor
      · intro hlt
        have hp : 1 < (v - mn) / (mx - mn) := by nlinarith
        rw [one_lt_div hd] at hp
        linarith
      · intro hv
        have hp : 1 < (v - mn) / (mx - mn) := (one_lt_div hd).mpr (by linarith)
        nlinarith
    have h2 : 144 < needleAngle mn mx v ↔ v < mn := by
      rw [needleAngle, hE, hS]
      constructor
      · intro hlt
        by_contra hnv
        push_neg at hnv
        have hp : 0 ≤ (v - mn) / (mx - mn) := div_nonneg (by linarith) hd.le
        nlinarith
      · intro hv
        have hp : (v - mn) / (mx - mn) < 0 := div_neg_of_neg_of_pos (by linarith) hd
        nlinarith
    rw [h1, h2]
    tauto

/-- Witness for C1: the standard [0,100] meter accepts v = 50 and the
monotonicity instance 144 > 90 > 36 holds at concrete points. -/
theorem C1_needle_angle_witness :
    mStd.min_value < mStd.max_value ∧
    (∃ m', Meter.set_value mStd 50 = some m' ∧
      m'.meter_start = needleAngle mStd.min_value mStd.max_value 50) ∧
    needleAngle 0 100 100 < needleAngle 0 100 50 ∧
    ((needleAngle 0 100 120 < 36 ∨ 144 < needleAngle 0 100 120) ↔
      ((120 : ℚ) < 0 ∨ (100 : ℚ) < 120)) := by
  have hlt : mStd.min_value < mStd.max_value := by rw [mStd_min, mStd_max]; norm_num
  exact ⟨hlt, C1_needle_angle.1 mStd 50 hlt,
    C1_needle_angle.2.1 50 100 (by norm_num),
    C1_needle_angle.2.2.2.2.2 0 100 120 (by norm_num)⟩

theorem zoneArcs_no_blue (red yellow blue : ℚ) (hb : blue = 0) :
    ∀ a ∈ Meter.zoneArcs red yellow blue, a.outline ≠ Meter.BLUE := by
  intro a ha
  rw [Meter.zoneArcs] at ha
  simp only [List.mem_append] at ha
  rcases ha with ((ha | ha) | ha) | ha
  · rw [List.mem_singleton] at ha
    rw [ha]; decide
  · rcases Decidable.em (red > 0) with hr | hr
    · rw [if_pos hr, List.mem_singleton] at ha
      rw [ha]
      show Meter.RED ≠ Meter.BLUE
      decide
    · rw [if_neg hr] at ha
      exact absurd ha (List.not_mem_nil a)
  · rcases Decidable.em (yellow > 0) with hy | hy
    · rw [if_pos hy, List.mem_singleton] at ha
      rw [ha]
      show Meter.YELLOW ≠ Meter.BLUE
      decide
    · rw [if_neg hy] at ha
      exact absurd ha (List.not_mem_nil a)
  · rw [if_neg (by rw [hb]; exact lt_irrefl 0)] at ha
    exact absurd ha (List.not_mem_nil a)

/-- C7: with `zone_blue_pct = 0` no blue zone arc is created, and for every
value at or above `min_value` the blue branch of the needle-color
tie-break is unreachable. -/
theorem C7_zone_blue_zero :
    (∀ (θ : Theme) (cfg : MeterConfig), cfg.blue = 0 →
      ∀ a ∈ (Meter.init θ cfg).zone_arcs, a.outline ≠ Meter.BLUE) ∧
    (∀ (m : MeterState) (v : ℚ), m.range_blue = 0 → m.min_value < m.max_value →
      m.min_value ≤ v →
      needleColorSel m.range_blue m.range_yellow m.range_red
        ((v - m.min_value) / (m.max_value - m.min_value)) ≠ NColor.blue) := by
  constructor
  · intro θ cfg hb a ha
    exact zoneArcs_no_blue cfg.red cfg.yellow cfg.blue hb a ha
  · intro m v h0 hlt hv hcontra
    have hd : (0 : ℚ) < m.max_value - m.min_value := sub_pos.mpr hlt
    have hp : 0 ≤ (v - m.min_value) / (m.max_value - m.min_value) :=
      div_nonneg (by linarith) hd.le
    rw [needleColorSel] at hcontra
    split_ifs at hcontra with h1 h2 h3
    · rw [h0] at h1
      nlinarith

/-- Default config (whose `blue` is 0) used to witness C7. -/
def cfgDefault : MeterConfig := {}

/-- Witness for C7 at the default config (whose blue percentage is 0) and
the in-range value 50. -/
theorem C7_zone_blue_zero_witness :
    (∀ a ∈ (Meter.init lightTheme cfgDefault).zone_arcs, a.outline ≠ Meter.BLUE) ∧
    needleColorSel (Meter.init lightTheme cfgDefault).range_blue
        (Meter.init lightTheme cfgDefault).range_yellow
        (Meter.init lightTheme cfgDefault).range_red
        ((50 - (Meter.init lightTheme cfgDefault).min_value)
          / ((Meter.init lightTheme cfgDefault).max_value
            - (Meter.init lightTheme cfgDefault).min_value)) ≠ NColor.blue :=
  ⟨C7_zone_blue_zero.1 lightTheme cfgDefault rfl,
   C7_zone_blue_zero.2 (Meter.init lightTheme cfgDefault) 50 rfl
     (by show (0 : ℚ) < 100; norm_num) (by show (0 : ℚ) ≤ 50; norm_num)⟩

theorem render_value_meter_fill (m : MeterState) (v : ℚ) :
    (Meter.render_value m v).meter_fill
      = Meter.colorOf m (needleColorSel m.range_blue m.range_yellow m.range_red
          ((v - m.min_value) / (m.max_value - m.min_value))) := rfl

/-- C8: a second `set_value` with the same value reproduces the identical
rendered state, and a value update never touches the static decorations
(zone arcs, tick wedges, title/min/max label texts and fills). -/
theorem C8_set_value_idempotent (m : MeterState) (x : ℚ) (m' : MeterState)
    (h : Meter.set_value m x = some m') :
    Meter.set_value m' x = some m' ∧
    m'.zone_arcs = m.zone_arcs ∧
    m'.wedges = m.wedges ∧
    m'.label1_text = m.label1_text ∧
    m'.label1_fill = m.label1_fill ∧
    m'.min_label_text = m.min_label_text ∧
    m'.min_label_fill = m.min_label_fill ∧
    m'.max_label_text = m.max_label_text ∧
    m'.max_label_fill = m.max_label_fill := by
  have hb : m.max_value - m.min_value ≠ 0 := by
    intro h0
    rw [Meter.set_value, Meter.update_meter] at h
    simp [pydiv, h0] at h
  rw [Meter.set_value_eq m x hb] at h
  have hm' : m' = Meter.render_value m x := (Option.some.inj h).symm
  subst hm'
  refine ⟨?_, rfl, rfl, rfl, rfl, rfl, rfl, rfl, rfl⟩
  have hb' : (Meter.render_value m x).max_value
      - (Meter.render_value m x).min_value ≠ 0 := hb
  rw [Meter.set_value_eq _ x hb']
  rfl

/-- Witness for C8 at the standard meter and x = 42. -/
theorem C8_set_value_idempotent_witness :
    Meter.set_value (Meter.render_value mStd 42) 42 = some (Meter.render_value mStd 42) ∧
    (Meter.render_value mStd 42).zone_arcs = mStd.zone_arcs ∧
    (Meter.render_value mStd 42).wedges = mStd.wedges ∧
    (Meter.render_value mStd 42).label1_text = mStd.label1_text ∧
    (Meter.render_value mStd 42).label1_fill = mStd.label1_fill ∧
    (Meter.render_value mStd 42).min_label_text = mStd.min_label_text ∧
    (Meter.render_value mStd 42).min_label_fill = mStd.min_label_fill ∧
    (Meter.render_value mStd 42).max_label_text = mStd.max_label_text ∧
    (Meter.render_value mStd 42).max_label_fill = mStd.max_label_fill :=
  C8_set_value_idempotent mStd 42 (Meter.render_value mStd 42)
    (Meter.set_value_eq mStd 42 mStd_sub_ne)

theorem mStd_set_value_fill (v : ℚ) :
    (Meter.set_value mStd v).map MeterState.meter_fill
      = some (Meter.colorOf mStd (needleColorSel 15 15 15 ((v - 0) / (100 - 0)))) := by
  rw [Meter.set_value_eq mStd v mStd_sub_ne]
  show some ((Meter.render_value mStd v).meter_fill) = _
  rw [render_value_meter_fill, mStd_rb, mStd_ry, mStd_rr, mStd_min, mStd_max]

/-- C2 counterexample: on the [0,100] meter with blue=yellow=red=15, the
value 90 gives pct*100 = 90 > 85 = 100 - zone_red_pct, so the update colors
the needle red — not yellow as the claim predicts for v = 90. -/
theorem C2_counterexample :
    (Meter.set_value mStd 90).map MeterState.meter_fill = some mStd.meter_red ∧
    mStd.meter_red ≠ mStd.meter_yellow := by
  constructor
  · rw [mStd_set_value_fill]
    have hsel : needleColorSel 15 15 15 ((90 - 0) / (100 - 0)) = NColor.red := by
      norm_num [needleColorSel]
    rw [hsel]
    rfl
  · show "#cc0000" ≠ "#cccc00"
    decide

/-- C2 amended: the needle color is decided by the first matching condition
in the order blue, red, yellow, neutral; on the standard meter v=10 → blue,
v=50 → neutral, v=85 → yellow (the red comparison is strict), v=90 → red
and v=95 → red. -/
theorem C2_needle_color_order :
    (∀ (m : MeterState) (v : ℚ), m.max_value - m.min_value ≠ 0 →
      ∃ m', Meter.set_value m v = some m' ∧
        m'.meter_fill = Meter.colorOf m (needleColorSel m.range_blue m.range_yellow
          m.range_red ((v - m.min_value) / (m.max_value - m.min_value))) ∧
        m'.meter_outline = m'.meter_fill) ∧
    (∀ rb ry rr p : ℚ,
      (p * 100 < rb → needleColorSel rb ry rr p = NColor.blue) ∧
      (¬ p * 100 < rb → p * 100 > 100 - rr → needleColorSel rb ry rr p = NColor.red) ∧
      (¬ p * 100 < rb → ¬ p * 100 > 100 - rr → p * 100 > 100 - rr - ry →
        needleColorSel rb ry rr p = NColor.yellow) ∧
      (¬ p * 100 < rb → ¬ p * 100 > 100 - rr → ¬ p * 100 > 100 - rr - ry →
        needleColorSel rb ry rr p = NColor.neutral)) ∧
    (Meter.set_value mStd 10).map MeterState.meter_fill = some mStd.meter_blue ∧
    (Meter.set_value mStd 50).map MeterState.meter_fill = some mStd.meter_color ∧
    (Meter.set_value mStd 85).map MeterState.meter_fill = some mStd.meter_yellow ∧
    (Meter.set_value mStd 90).map MeterState.meter_fill = some mStd.meter_red ∧
    (Meter.set_value mStd 95).map MeterState.meter_fill = some mStd.meter_red := by
  refine ⟨?_, ?_, ?_, ?_, ?_, ?_, ?_⟩
  · intro m v hb
    exact ⟨_, Meter.set_value_eq m v hb, rfl, rfl⟩
  · intro rb ry rr p
    refine ⟨?_, ?_, ?_, ?_⟩
    · intro h1
      rw [needleColorSel, if_pos h1]
    · intro h1 h2
      rw [needleColorSel, if_neg h1, if_pos h2]
    · intro h1 h2 h3
      rw [needleColorSel, if_neg h1, if_neg h2, if_pos h3]
    · intro h1 h2 h3
      rw [needleColorSel, if_neg h1, if_neg h2, if_neg h3]
  · rw [mStd_set_value_fill,
      show needleColorSel 15 15 15 ((10 - 0) / (100 - 0)) = NColor.blue by
        norm_num [needleColorSel]]
    rfl
  · rw [mStd_set_value_fill,
      show needleColorSel 15 15 15 ((50 - 0) / (100 - 0)) = NColor.neutral by
        norm_num [needleColorSel]]
    rfl
  · rw [mStd_set_value_fill,
      show needleColorSel 15 15 15 ((85 - 0) / (100 - 0)) = NColor.yellow by
        norm_num [needleColorSel]]
    rfl
  · rw [mStd_set_value_fill,
      show needleColorSel 15 15 15 ((90 - 0) / (100 - 0)) = NColor.red by
        norm_num [needleColorSel]]
    rfl
  · rw [mStd_set_value_fill,
      show needleColorSel 15 15 15 ((95 - 0) / (100 - 0)) = NColor.red by
        norm_num [needleColorSel]]
    rfl

/-- Witness for C2 (amended) at the standard meter and v = 37. -/
theorem C2_needle_color_order_witness :
    ∃ m', Meter.set_value mStd 37 = some m' ∧
      m'.meter_fill = Meter.colorOf mStd (needleColorSel mStd.range_blue mStd.range_yellow
        mStd.range_red ((37 - mStd.min_value) / (mStd.max_value - mStd.min_value))) ∧
      m'.meter_outline = m'.meter_fill :=
  C2_needle_color_order.1 mStd 37 mStd_sub_ne

/-- Celsius config with min_value = -3.5, the C6 counterexample input. -/
def cfgCelsius : MeterConfig := { min_value := -7/2, max_value := 50, unit := "°C" }

theorem pyInt_neg_seven_halves : pyInt (-7/2 : ℚ) = -3 := by
  rw [pyInt, if_neg (by norm_num), Int.ceil_eq_iff]
  norm_num

/-- C6 counterexample: min_value = -3.5 with unit "°C" renders as "-3°C"
(Python int() truncates toward zero), not "-4°C" as floor would give. -/
theorem C6_counterexample :
    (Meter.init lightTheme cfgCelsius).min_label_text = "-3°C" ∧
    (Meter.init lightTheme cfgCelsius).min_label_text ≠ "-4°C" := by
  have h : (Meter.init lightTheme cfgCelsius).min_label_text = "-3°C" := by
    show toString (pyInt cfgCelsius.min_value) ++ cfgCelsius.unit = "-3°C"
    rw [show cfgCelsius.min_value = -7/2 from rfl, pyInt_neg_seven_halves]
    decide
  exact ⟨h, by rw [h]; decide⟩

/-- C6 amended: the min and max labels render Python int() truncation
toward zero of the bound (agreeing with floor exactly on nonnegative
values) followed by the unit, while the current-value label renders the
pushed value with its native float string conversion followed by the
unit. -/
theorem C6_label_formatting :
    (∀ (θ : Theme) (cfg : MeterConfig),
      (Meter.init θ cfg).min_label_text = toString (pyInt cfg.min_value) ++ cfg.unit ∧
      (Meter.init θ cfg).max_label_text = toString (pyInt cfg.max_value) ++ cfg.unit) ∧
    (∀ q : ℚ, 0 ≤ q → pyInt q = ⌊q⌋) ∧
    (∀ (m : MeterState) (v : ℚ) (m' : MeterState), Meter.set_value m v = some m' →
      m'.current_text = pyFloatRepr v ++ m.unit) := by
  refine ⟨fun θ cfg => ⟨rfl, rfl⟩, fun q hq => if_pos hq, ?_⟩
  intro m v m' h
  have hb : m.max_value - m.min_value ≠ 0 := by
    intro h0
    rw [Meter.set_value, Meter.update_meter] at h
    simp [pydiv, h0] at h
  rw [Meter.set_value_eq m v hb] at h
  rw [← Option.some.inj h]
  rfl

/-- Witness for C6 (amended): truncation agrees with floor at 7/2, and the
current label after set_value(55) on the standard meter. -/
theorem C6_label_formatting_witness :
    pyInt (7/2 : ℚ) = ⌊(7/2 : ℚ)⌋ ∧
    (Meter.render_value mStd 55).current_text = pyFloatRepr 55 ++ mStd.unit :=
  ⟨C6_label_formatting.2.1 (7/2) (by norm_num),
   C6_label_formatting.2.2 mStd 55 (Meter.render_value mStd 55)
     (Meter.set_value_eq mStd 55 mStd_sub_ne)⟩
